import Mathlib

/-!
Formal model of the identity-resolution and event-normalization core of the
MCP lead gateway (repository layer, ElevenLabs webhook endpoints, and the
lead-ingest event tools), translated as a shallow embedding:

* Python `Optional[str]` values become `Option String`; Python truthiness of
  strings / optionals / dicts is made explicit (`truthyOptStr`, `truthyVal`).
* Dynamically typed JSON-ish values that the code inspects (`.get` on a lead
  record or a `data_collection` map) become `PyVal` (string / int / null).
* Nondeterministic effects (`uuid4()`, `datetime.now()`) become explicit
  parameters (`fresh`, `now`) of the functions that call them.
* Fallible operations (pydantic validation, the pluggable lookup callback and
  post-call handler, the outbound publish) return `Except`.
* The mutable stores of `InMemoryRepository` (`leads`, `events` dicts, which
  preserve insertion order) become lists passed and returned explicitly.
-/

set_option linter.unusedVariables false

namespace Gateway

/-! ## Python value primitives -/

/-- A dynamically typed value as inspected by the webhook code: a JSON string,
integer, or null (`None`). -/
inductive PyVal where
  | str (s : String)
  | int (n : Int)
  | none_
deriving DecidableEq, Repr, Inhabited

/-- Python truthiness of a `PyVal`: `""`, `0` and `None` are falsy. -/
def truthyVal : PyVal → Bool
  | .str s => s != ""
  | .int n => n != 0
  | .none_ => false

/-- Python truthiness of an `Optional[str]`: `None` and `""` are falsy. -/
def truthyOptStr : Option String → Bool
  | none => false
  | some s => s != ""

/-- Python `a or b` on dynamically typed values (returns `a` when truthy). -/
def orV (a b : PyVal) : PyVal := if truthyVal a then a else b

/-- Python `a or b` where `a : Optional[str]` and `b : str`. -/
def pyOrStrOpt (a : Option String) (b : String) : String :=
  match a with
  | some s => if s != "" then s else b
  | none => b

/-- Python `a or b` on two `Optional[str]` values (result is `b`, possibly
falsy, when `a` is falsy). -/
def pyOrOpt (a b : Option String) : Option String :=
  if truthyOptStr a then a else b

/-- `d.get(k)` on a modelled dict: the value stored at the first matching key,
`None` when the key is absent. -/
def dictGet (d : List (String × PyVal)) (k : String) : Option PyVal :=
  (d.find? (fun kv => kv.1 == k)).map (fun kv => kv.2)

/-- Python `str(v)`: identity on strings, decimal rendering of ints,
`"None"` for null. -/
def pyStrOf : PyVal → String
  | .str s => s
  | .int n => toString n
  | .none_ => "None"

/-- Decimal digits of a numeral (most significant first) to its value. -/
def digitsToNat (cs : List Char) : Nat :=
  cs.foldl (fun a c => a * 10 + (c.toNat - 48)) 0

/-- Strip leading and trailing whitespace from a character list
(`str.strip()` as performed by `int(...)`). -/
def stripWS (cs : List Char) : List Char :=
  ((cs.dropWhile Char.isWhitespace).reverse.dropWhile Char.isWhitespace).reverse

/-- Python `int(s)` on a string: strip surrounding whitespace, allow one
optional sign, then require a nonempty run of decimal digits; any other shape
raises `ValueError`, modelled as `none`. -/
def pyIntOfString (s : String) : Option Int :=
  match stripWS s.toList with
  | [] => none
  | '+' :: rest =>
    if !rest.isEmpty && rest.all Char.isDigit then some (digitsToNat rest) else none
  | '-' :: rest =>
    if !rest.isEmpty && rest.all Char.isDigit then some (-(digitsToNat rest : Int)) else none
  | cs =>
    if cs.all Char.isDigit then some (digitsToNat cs) else none

/-- Python `int(v)` on a dynamic value: ints pass through, strings are parsed,
`None` raises `TypeError` (modelled as `none`). -/
def pyToInt : PyVal → Option Int
  | .int n => some n
  | .str s => pyIntOfString s
  | .none_ => none

/-! ## Repository layer (`shared/repository.py`, `InMemoryRepository`)

`InMemoryRepository.leads` is a dict keyed by ingest id whose values hold the
OHID and the lead; Python dicts iterate in insertion order, so the store is
modelled as a list to which `insert_lead_context` appends. -/

/-- `shared.models.Person`. -/
structure Person where
  first_name : String
  last_name : String
  email : Option String := none
  phone : Option String := none
deriving DecidableEq, Repr

/-- One entry of `InMemoryRepository.leads`: the dict key (ingest id) and the
stored `{"ohid": ..., "lead": ...}` value (only the person sub-record of the
lead is ever read back, by `find_ohid_by_contact`). -/
structure StoredLead where
  ingest_id : String
  ohid : String
  person : Person
deriving DecidableEq, Repr

/-- The disjunctive contact match of `InMemoryRepository.find_ohid_by_contact`:
`(email and p.email == email) or (phone and p.phone == phone)`. -/
def matchesContact (email phone : Option String) (r : StoredLead) : Bool :=
  (truthyOptStr email && r.person.email == email)
    || (truthyOptStr phone && r.person.phone == phone)

/-- `InMemoryRepository.find_ohid_by_contact`: first stored record (in
insertion order) whose person matches the query disjunctively. -/
def find_ohid_by_contact (leads : List StoredLead) (email phone : Option String) :
    Option String :=
  match leads with
  | [] => none
  | r :: rest =>
    if matchesContact email phone r then some r.ohid
    else find_ohid_by_contact rest email phone

/-- `InMemoryRepository.insert_lead_context`: store the record under a fresh
ingest id (appended, since dict insertion order is iteration order). -/
def insert_lead_context (leads : List StoredLead) (ohid ingest_id : String)
    (person : Person) : List StoredLead :=
  leads ++ [{ ingest_id := ingest_id, ohid := ohid, person := person }]

/-- `shared.repository.resolve_ohid`: return the existing OHID found by
contact, else the freshly minted `uuid4()` (passed in as `fresh`). -/
def resolve_ohid (leads : List StoredLead) (person : Person) (fresh : String) :
    String :=
  match find_ohid_by_contact leads person.email person.phone with
  | some existing => existing
  | none => fresh

/-! ## HMAC-SHA256 (`hashlib.sha256` / `hmac.new(..., hashlib.sha256)`)

Executable embedding of the hash used by `verify_elevenlabs_signature`.
Bytes are `Nat`s below 256; 32-bit words are `Nat`s reduced mod `2^32`. -/

/-- Low 32 bits. -/
def mask32 : Nat := 0xffffffff

/-- 32-bit modular addition. -/
def add32 (a b : Nat) : Nat := (a + b) % 4294967296

/-- 32-bit right rotation. -/
def rotr32 (n x : Nat) : Nat := ((x >>> n) ||| (x <<< (32 - n))) &&& mask32

/-- SHA-256 Σ0. -/
def bsig0 (x : Nat) : Nat := rotr32 2 x ^^^ rotr32 13 x ^^^ rotr32 22 x

/-- SHA-256 Σ1. -/
def bsig1 (x : Nat) : Nat := rotr32 6 x ^^^ rotr32 11 x ^^^ rotr32 25 x

/-- SHA-256 σ0. -/
def ssig0 (x : Nat) : Nat := rotr32 7 x ^^^ rotr32 18 x ^^^ (x >>> 3)

/-- SHA-256 σ1. -/
def ssig1 (x : Nat) : Nat := rotr32 17 x ^^^ rotr32 19 x ^^^ (x >>> 10)

/-- SHA-256 choice function. -/
def chf (e f g : Nat) : Nat := (e &&& f) ^^^ ((mask32 ^^^ e) &&& g)

/-- SHA-256 majority function. -/
def majf (a b c : Nat) : Nat := (a &&& b) ^^^ (a &&& c) ^^^ (b &&& c)

/-- SHA-256 round constants (decimal rendering of the FIPS 180-4 table). -/
def sha256K : List Nat :=
  [1116352408, 1899447441, 3049323471, 3921009573, 961987163,
   1508970993, 2453635748, 2870763221, 3624381080, 310598401,
   607225278, 1426881987, 1925078388, 2162078206, 2614888103,
   3248222580, 3835390401, 4022224774, 264347078, 604807628,
   770255983, 1249150122, 1555081692, 1996064986, 2554220882,
   2821834349, 2952996808, 3210313671, 3336571891, 3584528711,
   113926993, 338241895, 666307205, 773529912, 1294757372,
   1396182291, 1695183700, 1986661051, 2177026350, 2456956037,
   2730485921, 2820302411, 3259730800, 3345764771, 3516065817,
   3600352804, 4094571909, 275423344, 430227734, 506948616,
   659060556, 883997877, 958139571, 1322822218, 1537002063,
   1747873779, 1955562222, 2024104815, 2227730452, 2361852424,
   2428436474, 2756734187, 3204031479, 3329325298]

/-- SHA-256 working state: eight 32-bit words. -/
structure Hash8 where
  h0 : Nat
  h1 : Nat
  h2 : Nat
  h3 : Nat
  h4 : Nat
  h5 : Nat
  h6 : Nat
  h7 : Nat
deriving DecidableEq, Repr

/-- SHA-256 initial hash value (decimal rendering). -/
def sha256H0 : Hash8 :=
  ⟨1779033703, 3144134277, 1013904242, 2773480762,
   1359893119, 2600822924, 528734635, 1541459225⟩

/-- SHA-256 padding: append `0x80`, zeros, and the 64-bit big-endian bit
length, reaching a multiple of 64 bytes. -/
def sha256pad (msg : List Nat) : List Nat :=
  let len := msg.length
  let bitlen := len * 8
  let z := (119 - len % 64) % 64
  msg ++ [0x80] ++ List.replicate z 0
    ++ (List.range 8).map (fun i => (bitlen >>> (8 * (7 - i))) &&& 255)

/-- Big-endian 32-bit words from a byte list (groups of four). -/
def bytesToWords : List Nat → List Nat
  | b0 :: b1 :: b2 :: b3 :: rest =>
    (((b0 * 256 + b1) * 256 + b2) * 256 + b3) :: bytesToWords rest
  | _ => []

/-- Extend 16 message words to the 64-entry SHA-256 message schedule. -/
def msgSchedule (ws : List Nat) : Array Nat := Id.run do
  let mut w := ws.toArray
  for i in [16:64] do
    w := w.push (add32 (add32 (ssig1 (w.getD (i - 2) 0)) (w.getD (i - 7) 0))
                       (add32 (ssig0 (w.getD (i - 15) 0)) (w.getD (i - 16) 0)))
  return w

/-- SHA-256 compression of one 64-byte block into the running hash. -/
def sha256compress (hs : Hash8) (block : List Nat) : Hash8 :=
  let w := msgSchedule (bytesToWords block)
  let step := fun (st : Nat × Nat × Nat × Nat × Nat × Nat × Nat × Nat) (i : Nat) =>
    match st with
    | (a, b, c, d, e, f, g, h) =>
      let t1 := add32 h (add32 (bsig1 e)
        (add32 (chf e f g) (add32 (sha256K.getD i 0) (w.getD i 0))))
      let t2 := add32 (bsig0 a) (majf a b c)
      (add32 t1 t2, a, b, c, add32 d t1, e, f, g)
  match (List.range 64).foldl step
      (hs.h0, hs.h1, hs.h2, hs.h3, hs.h4, hs.h5, hs.h6, hs.h7) with
  | (a, b, c, d, e, f, g, h) =>
    ⟨add32 hs.h0 a, add32 hs.h1 b, add32 hs.h2 c, add32 hs.h3 d,
     add32 hs.h4 e, add32 hs.h5 f, add32 hs.h6 g, add32 hs.h7 h⟩

/-- Fold the compression over `n` successive 64-byte blocks. -/
def sha256runChunks (hs : Hash8) (data : List Nat) : Nat → Hash8
  | 0 => hs
  | n + 1 => sha256runChunks (sha256compress hs (data.take 64)) (data.drop 64) n

/-- Big-endian bytes of a 32-bit word. -/
def wordBytes (w : Nat) : List Nat :=
  [(w >>> 24) &&& 255, (w >>> 16) &&& 255, (w >>> 8) &&& 255, w &&& 255]

/-- SHA-256 digest (32 bytes) of a byte list. -/
def sha256bytes (msg : List Nat) : List Nat :=
  let padded := sha256pad msg
  let hs := sha256runChunks sha256H0 padded (padded.length / 64)
  wordBytes hs.h0 ++ wordBytes hs.h1 ++ wordBytes hs.h2 ++ wordBytes hs.h3
    ++ wordBytes hs.h4 ++ wordBytes hs.h5 ++ wordBytes hs.h6 ++ wordBytes hs.h7

/-- Lowercase hex digit. -/
def hexDigit (n : Nat) : Char :=
  if n < 10 then Char.ofNat (48 + n) else Char.ofNat (87 + n)

/-- Lowercase hex rendering of a byte list (`.hexdigest()`). -/
def bytesToHex (bs : List Nat) : String :=
  String.mk (bs.foldr (fun b acc => hexDigit (b / 16) :: hexDigit (b % 16) :: acc) [])

/-- `hmac.new(key, msg, hashlib.sha256).digest()`. -/
def hmac_sha256 (key msg : List Nat) : List Nat :=
  let k0 := if key.length > 64 then sha256bytes key else key
  let kpad := k0 ++ List.replicate (64 - k0.length) 0
  let ipadded := kpad.map (fun b => b ^^^ 0x36)
  let opadded := kpad.map (fun b => b ^^^ 0x5c)
  sha256bytes (opadded ++ sha256bytes (ipadded ++ msg))

/-- `hmac.new(key, msg, hashlib.sha256).hexdigest()`. -/
def hmac_sha256_hexdigest (key msg : List Nat) : String :=
  bytesToHex (hmac_sha256 key msg)

/-- UTF-8 bytes of a string (`str.encode("utf-8")`). -/
def strBytes (s : String) : List Nat :=
  s.toUTF8.toList.map (fun b => b.toNat)

/-- `hmac.compare_digest` on two hex strings: a constant-time comparison whose
result is string equality. -/
def compare_digest (a b : String) : Bool := a == b

/-- `elevenlabs_webhooks.verify_elevenlabs_signature`: dev-mode bypass when no
secret is configured; reject a missing (falsy) signature; otherwise accept
exactly the HMAC-SHA256 hex digest of the raw body under the secret. -/
def verify_elevenlabs_signature (raw_body : List Nat)
    (signature secret : Option String) : Bool :=
  if !truthyOptStr secret then true
  else if !truthyOptStr signature then false
  else compare_digest (signature.getD "")
    (hmac_sha256_hexdigest (strBytes (secret.getD "")) raw_body)

/-! ## ElevenLabs conversation-initiation path (`src/elevenlabs_webhooks.py`) -/

/-- `ConversationInitiationRequest`: the four phone aliases plus ids. -/
structure ConversationInitiationRequest where
  number : Option String := none
  caller_id : Option String := none
  phone_number : Option String := none
  from_number : Option String := none
  agent_id : Option String := none
  conversation_id : Option String := none
  call_sid : Option String := none
deriving DecidableEq, Repr

/-- `ConversationInitiationRequest.resolve_phone`:
`self.number or self.caller_id or self.phone_number or self.from_number`. -/
def ConversationInitiationRequest.resolve_phone
    (req : ConversationInitiationRequest) : Option String :=
  pyOrOpt req.number (pyOrOpt req.caller_id (pyOrOpt req.phone_number req.from_number))

/-- `DynamicVariables`: the sixteen string-typed personalization variables with
their documented defaults, in pydantic declaration order. -/
structure DynamicVariables where
  first_name : String := "there"
  last_name : String := ""
  lead_status : String := "new"
  qualification_score : String := "0"
  property_type : String := "not specified"
  source : String := "phone"
  previous_contact : String := "no"
  last_interaction : String := "first contact"
  notes : String := ""
  ohid : String := ""
  budget_range : String := "not discussed"
  investment_timeline : String := "not discussed"
  preferred_location : String := "Dubai"
  nationality : String := ""
  occupation : String := ""
  phone : String := ""
deriving DecidableEq, Repr

/-- The all-default variable set `DynamicVariables()`. -/
def defaultDynamicVariables : DynamicVariables := {}

/-- `DynamicVariables.model_dump()`: the sixteen key/value pairs in field
declaration order. -/
def dvDump (dv : DynamicVariables) : List (String × String) :=
  [("first_name", dv.first_name), ("last_name", dv.last_name),
   ("lead_status", dv.lead_status), ("qualification_score", dv.qualification_score),
   ("property_type", dv.property_type), ("source", dv.source),
   ("previous_contact", dv.previous_contact), ("last_interaction", dv.last_interaction),
   ("notes", dv.notes), ("ohid", dv.ohid), ("budget_range", dv.budget_range),
   ("investment_timeline", dv.investment_timeline),
   ("preferred_location", dv.preferred_location), ("nationality", dv.nationality),
   ("occupation", dv.occupation), ("phone", dv.phone)]

/-- The lead record returned by the pluggable lookup: a dict whose listed keys
are the ones `map_lead_to_variables` reads. An absent key is `none`; a key
stored with JSON null is `some .none_`. -/
structure Lead where
  First_Name : Option PyVal := none
  Last_Name : Option PyVal := none
  Lead_Status : Option PyVal := none
  qualification_score : Option PyVal := none
  Lead_Type : Option PyVal := none
  Lead_Source : Option PyVal := none
  Campaign : Option PyVal := none
  call_timestamp : Option PyVal := none
  Modified_Time : Option PyVal := none
  call_summary : Option PyVal := none
  Description : Option PyVal := none
  DistributionID : Option PyVal := none
  Record_Id : Option PyVal := none
  Budget_Range : Option PyVal := none
  Investment_Timeline : Option PyVal := none
  Preferred_Location : Option PyVal := none
  Nationality : Option PyVal := none
  Occupation : Option PyVal := none
deriving DecidableEq, Repr

/-- `d.get(k)` with default `None`: absent keys read as null. -/
def pyGet (o : Option PyVal) : PyVal := o.getD .none_

/-- Pydantic validation of a value against a `str` field: strings pass
through, any non-string value raises a `ValidationError`. -/
def strOk : PyVal → Except Unit String
  | .str s => .ok s
  | _ => .error ()

/-- `map_lead_to_variables`: field-by-field mapping of a looked-up lead record
into the sixteen variables, with Python `or` fallbacks; constructing the
pydantic model validates every field as a string and may raise. -/
def map_lead_to_variables (lead : Lead) (phone : String) :
    Except Unit DynamicVariables := do
  let ls0 := lead.Lead_Status.getD (.str "new")
  let has_previous :=
    (!(ls0 == PyVal.str "new" || ls0 == PyVal.str "New" || ls0 == PyVal.str ""))
      && !(pyGet lead.Lead_Status == PyVal.none_)
  let first_name ← strOk (orV (pyGet lead.First_Name) (.str "there"))
  let last_name ← strOk (orV (pyGet lead.Last_Name) (.str ""))
  let lead_status ← strOk (orV (pyGet lead.Lead_Status) (.str "new"))
  let qualification_score := pyStrOf (lead.qualification_score.getD (.int 0))
  let property_type ← strOk (orV (pyGet lead.Lead_Type) (.str "not specified"))
  let source ← strOk (orV (pyGet lead.Lead_Source)
    (orV (pyGet lead.Campaign) (.str "phone")))
  let previous_contact := if has_previous then "yes" else "no"
  let last_interaction ← strOk (orV (pyGet lead.call_timestamp)
    (orV (pyGet lead.Modified_Time) (.str "first contact")))
  let notes ← strOk (orV (pyGet lead.call_summary)
    (orV (pyGet lead.Description) (.str "")))
  let ohid ← strOk (orV (pyGet lead.DistributionID)
    (.str (pyStrOf (lead.Record_Id.getD (.str "")))))
  let budget_range ← strOk (orV (pyGet lead.Budget_Range) (.str "not discussed"))
  let investment_timeline ← strOk (orV (pyGet lead.Investment_Timeline)
    (.str "not discussed"))
  let preferred_location ← strOk (orV (pyGet lead.Preferred_Location) (.str "Dubai"))
  let nationality ← strOk (orV (pyGet lead.Nationality) (.str ""))
  let occupation ← strOk (orV (pyGet lead.Occupation) (.str ""))
  return { first_name := first_name, last_name := last_name,
           lead_status := lead_status, qualification_score := qualification_score,
           property_type := property_type, source := source,
           previous_contact := previous_contact, last_interaction := last_interaction,
           notes := notes, ohid := ohid, budget_range := budget_range,
           investment_timeline := investment_timeline,
           preferred_location := preferred_location, nationality := nationality,
           occupation := occupation, phone := phone }

/-- The body of the `conversation_initiation` endpoint after signature and
JSON checks: start from the all-default variable set; when the resolved phone
is truthy, set `phone` eagerly, then try the pluggable lookup and mapping, any
exception (or a miss) leaving the eagerly-set defaults in place. The lookup
outcome (`_lookup_lead`, which may raise) is the `lookup` argument. -/
def conversation_initiation (phone : Option String)
    (lookup : Except Unit (Option Lead)) : DynamicVariables :=
  match phone with
  | none => {}
  | some p =>
    if p == "" then {}
    else
      let dv : DynamicVariables := { phone := p }
      match lookup with
      | .ok (some lead) =>
        match map_lead_to_variables lead p with
        | .ok mapped => mapped
        | .error _ => dv
      | _ => dv

/-- `ConversationInitiationResponse`: envelope returned to the voice agent
(`dynamic_variables` is the pydantic dump of the sixteen fields). -/
structure ConversationInitiationResponse where
  type_ : String := "conversation_initiation_client_data"
  dynamic_variables : List (String × String)
  override_language : String := "en"
deriving DecidableEq, Repr

/-- The full `conversation_initiation` HTTP endpoint: signature verification
first (403 on failure, before any parsing or lookup), then JSON/model parsing
(400 on failure, modelled by the `parse` outcome), then the personalization
body, which never raises. -/
def conversation_initiation_endpoint (raw_body : List Nat)
    (signature secret : Option String)
    (parse : Except Unit ConversationInitiationRequest)
    (lookup : Except Unit (Option Lead)) :
    Except Nat ConversationInitiationResponse :=
  if !verify_elevenlabs_signature raw_body signature secret then .error 403
  else
    match parse with
    | .error _ => .error 400
    | .ok req =>
      .ok { dynamic_variables :=
              dvDump (conversation_initiation req.resolve_phone lookup) }

/-! ## ElevenLabs post-call path (`src/elevenlabs_webhooks.py`) -/

/-- `ConversationAnalysis`: the analysis block of a post-call payload. -/
structure ConversationAnalysis where
  call_successful : Option String := none
  call_summary : Option String := none
  transcript_summary : Option String := none
  data_collection : Option (List (String × PyVal)) := none
deriving DecidableEq, Repr

/-- `PostCallRequest`: inbound post-call payload (fields the handler reads). -/
structure PostCallRequest where
  conversation_id : String
  agent_id : Option String := none
  status : Option String := none
  call_duration_secs : Option Int := none
  call_sid : Option String := none
  phone_number : Option String := none
  analysis : Option ConversationAnalysis := none
  human_transfer : Option String := none
  collected_data : Option (List (String × PyVal)) := none
deriving DecidableEq, Repr

/-- The summary extraction of `post_call`:
`req.analysis.call_summary or req.analysis.transcript_summary or ""`,
with `""` when no analysis block is present. -/
def extract_call_summary (analysis : Option ConversationAnalysis) : String :=
  match analysis with
  | none => ""
  | some a => pyOrStrOpt a.call_summary (pyOrStrOpt a.transcript_summary "")

/-- The qualification-score extraction of `post_call`: start from 0; when an
analysis block with a truthy (non-empty) `data_collection` dict is present and
holds a non-null `qualification_score`, parse it with `int(...)`, the
`try/except` keeping 0 on any parse failure. -/
def extract_qualification_score (analysis : Option ConversationAnalysis) : Int :=
  match analysis with
  | none => 0
  | some a =>
    match a.data_collection with
    | none => 0
    | some dc =>
      if dc.isEmpty then 0
      else
        match dictGet dc "qualification_score" with
        | none => 0
        | some raw =>
          if raw == PyVal.none_ then 0
          else match pyToInt raw with
            | some n => n
            | none => 0

/-- The `lead_update` dict handed to the registered post-call handler. -/
structure LeadUpdate where
  conversation_id : String
  call_sid : Option String
  call_status : String
  call_summary : String
  call_timestamp : String
  qualification_score : Int
  call_duration_secs : Option Int
  human_transfer : Option String
  phone : Option String
  agent_id : Option String
  collected_data : Option (List (String × PyVal))
  transfer_failure : Bool
deriving DecidableEq, Repr

/-- `PostCallResponse`: the synchronous acknowledgement. -/
structure PostCallResponse where
  received : Bool := true
  conversation_id : String
  correlation_id : String
  processed_at : String
  transfer_failure_flagged : Bool := false
deriving DecidableEq, Repr

/-- Everything the post-call body produces: the HTTP response, the record
handed to the persistence handler, and the handler's (caught) outcome. -/
structure PostCallOutcome where
  response : PostCallResponse
  lead_update : LeadUpdate
  handler_result : Except Unit Unit
deriving Repr

/-- The body of the `post_call` endpoint after signature and JSON checks:
extract summary and score, flag a transfer failure, build the `lead_update`
record, invoke the registered handler with its exception caught and logged,
and acknowledge receipt unconditionally. `correlation_id` is the fresh
`uuid4()` and `now` the `datetime.now(timezone.utc).isoformat()` value. -/
def post_call (req : PostCallRequest) (handler : LeadUpdate → Except Unit Unit)
    (correlation_id now : String) : PostCallOutcome :=
  let call_summary := extract_call_summary req.analysis
  let qualification_score := extract_qualification_score req.analysis
  let transfer_failure := req.human_transfer == some "failure"
  let lu : LeadUpdate :=
    { conversation_id := req.conversation_id
      call_sid := req.call_sid
      call_status := pyOrStrOpt req.status "unknown"
      call_summary := call_summary
      call_timestamp := now
      qualification_score := qualification_score
      call_duration_secs := req.call_duration_secs
      human_transfer := req.human_transfer
      phone := req.phone_number
      agent_id := req.agent_id
      collected_data := req.collected_data
      transfer_failure := transfer_failure }
  let hr := handler lu
  { response :=
      { conversation_id := req.conversation_id
        correlation_id := correlation_id
        processed_at := now
        transfer_failure_flagged := transfer_failure }
    lead_update := lu
    handler_result := hr }

/-- The full `post_call` HTTP endpoint: signature verification first (403 on
failure, before any parsing or persistence), then JSON/model parsing (400 on
failure, modelled by the `parse` outcome), then the acknowledge-always body. -/
def post_call_endpoint (raw_body : List Nat) (signature secret : Option String)
    (parse : Except Unit PostCallRequest)
    (handler : LeadUpdate → Except Unit Unit)
    (correlation_id now : String) : Except Nat PostCallResponse :=
  if !verify_elevenlabs_signature raw_body signature secret then .error 403
  else
    match parse with
    | .error _ => .error 400
    | .ok req => .ok (post_call req handler correlation_id now).response

/-! ## Lead-ingest MCP tools (`servers/lead_ingest.py`)

Each tool runs against the repository state and also attempts a best-effort
publish to the workflow webhook. The publish outcome is a parameter
(`pub`), the webhook-configured flag another (`url_configured`); `fresh` and
`now` stand for `uuid4()` and `datetime.now(timezone.utc).isoformat()`.
Repository and publish side effects are additionally recorded as a trace. -/

/-- One row of `InMemoryRepository.events` together with the `occurred_at`
stamp the tools place in the event payload. -/
structure EventRow where
  event_id : String
  ohid : Option String
  event_type : String
  occurred_at : String
  source_system : String
deriving DecidableEq, Repr

/-- `InMemoryRepository.insert_workflow_event`: append-only event log. -/
def insert_workflow_event (events : List EventRow) (event_id : String)
    (ohid : Option String) (event_type : String) (occurred_at : String)
    (source_system : String) : List EventRow :=
  events ++ [{ event_id := event_id, ohid := ohid, event_type := event_type,
               occurred_at := occurred_at, source_system := source_system }]

/-- Ordered record of the side effects a tool performs. -/
inductive GatewayEffect where
  | insertLead (ingest_id : String)
  | insertEvent (event_id : String)
  | publishAttempt (event_type : String) (succeeded : Bool)
deriving DecidableEq, Repr

/-- `_publish_event`: no-op when no webhook URL is configured; otherwise one
POST whose `httpx.HTTPError` is swallowed (`except ...: pass`), so only the
attempt and its outcome are observable. -/
def publish_event (url_configured : Bool) (pub : Except Unit Unit)
    (event_type : String) : List GatewayEffect :=
  if url_configured then
    match pub with
    | .ok _ => [.publishAttempt event_type true]
    | .error _ => [.publishAttempt event_type false]
  else []

/-- Result and post-state of a lead-ingest tool call. -/
structure ToolOutcome (ρ : Type) where
  events : List EventRow
  result : ρ
  trace : List GatewayEffect
deriving DecidableEq, Repr

/-- Result dict of `ingest_lead`. -/
structure IngestResult where
  ohid : String
  ingest_id : String
  source_system : String
  status : String
deriving DecidableEq, Repr

/-- Post-state and result of `ingest_lead` (it also writes the lead store). -/
structure IngestOutcome where
  leads : List StoredLead
  events : List EventRow
  result : IngestResult
  trace : List GatewayEffect
deriving DecidableEq, Repr

/-- The `ingest_lead` tool: resolve or mint an OHID, persist the lead context
under a fresh ingest id, append a `LeadIngested` workflow event carrying that
same id and the normalization-time timestamp, then best-effort publish.
`fresh_ohid` and `ingest_id` stand for the two `uuid4()` draws. -/
def ingest_lead (leadStore : List StoredLead) (events : List EventRow)
    (source_system source_lead_id channel first_name last_name : String)
    (email phone : Option String)
    (fresh_ohid ingest_id now : String)
    (url_configured : Bool) (pub : Except Unit Unit) : IngestOutcome :=
  let person : Person :=
    { first_name := first_name, last_name := last_name, email := email, phone := phone }
  let ohid := resolve_ohid leadStore person fresh_ohid
  let leads2 := insert_lead_context leadStore ohid ingest_id person
  let events2 := insert_workflow_event events ingest_id (some ohid)
    "LeadIngested" now source_system
  { leads := leads2
    events := events2
    result := { ohid := ohid, ingest_id := ingest_id,
                source_system := source_system, status := "ingested" }
    trace := [.insertLead ingest_id, .insertEvent ingest_id]
      ++ publish_event url_configured pub "LeadIngested" }

/-- The Twilio branch of the event-type mapping:
`CallReceived` for `ringing`/`queued`/`initiated`, else `CallCompleted`. -/
def twilio_internal_event_type (call_status : String) : String :=
  if call_status == "ringing" || call_status == "queued" || call_status == "initiated"
  then "CallReceived" else "CallCompleted"

/-- Result dict of `process_twilio_event`. -/
structure TwilioResult where
  event_id : String
  event_type : String
  accepted : Bool
deriving DecidableEq, Repr

/-- The `process_twilio_event` tool: map the native call status to the
internal event type, persist the event (fresh id, normalization-time
timestamp, no identity), then best-effort publish. -/
def process_twilio_event (events : List EventRow)
    (call_sid call_status direction from_number to_number : String)
    (recording_url call_duration : Option String)
    (fresh now : String) (url_configured : Bool) (pub : Except Unit Unit) :
    ToolOutcome TwilioResult :=
  let internal_event_type := twilio_internal_event_type call_status
  let events2 := insert_workflow_event events fresh none internal_event_type now "TWILIO"
  { events := events2
    result := { event_id := fresh, event_type := internal_event_type, accepted := true }
    trace := [.insertEvent fresh] ++ publish_event url_configured pub internal_event_type }

/-- The payload of a Notion webhook as the tool inspects it: presence of a
`challenge` key, and the optional `type` and `id` keys. -/
structure NotionPayload where
  challenge : Option String := none
  type_ : Option String := none
  id : Option String := none
deriving DecidableEq, Repr

/-- Result of `process_notion_event`: either the echoed challenge or an
accepted event. -/
inductive NotionResult where
  | challenge (value : String)
  | accepted (event_id : String)
deriving DecidableEq, Repr

/-- The `process_notion_event` tool: echo a verification challenge without
persisting; otherwise persist a `NotionEvent` whose event id is
`payload.get("id", str(uuid4()))` — the native payload id when present, the
fresh uuid only as the absent-key default — then best-effort publish. -/
def process_notion_event (events : List EventRow) (payload : NotionPayload)
    (fresh now : String) (url_configured : Bool) (pub : Except Unit Unit) :
    ToolOutcome NotionResult :=
  match payload.challenge with
  | some v => { events := events, result := .challenge v, trace := [] }
  | none =>
    let event_id := payload.id.getD fresh
    let events2 := insert_workflow_event events event_id none "NotionEvent" now "NOTION"
    { events := events2
      result := .accepted event_id
      trace := [.insertEvent event_id] ++ publish_event url_configured pub "NotionEvent" }

/-- The ElevenLabs branch of the event-type mapping. -/
def elevenlabs_internal_event_type (event_type : String) : String :=
  if event_type == "call.ended" || event_type == "post_call_transcription"
      || event_type == "call.analysis_complete"
  then "ElevenLabsCallCompleted" else "ElevenLabsEvent"

/-- Result dict of `process_elevenlabs_event`. -/
structure ElevenLabsResult where
  event_id : String
  event_type : String
  conversation_id : Option String
  accepted : Bool
deriving DecidableEq, Repr

/-- The `process_elevenlabs_event` tool: map the native event type, persist
the event (fresh id, normalization-time timestamp, no identity), then
best-effort publish. -/
def process_elevenlabs_event (events : List EventRow)
    (event_type : String) (agent_id conversation_id : Option String)
    (call_duration_secs : Option Int) (transcript recording_url caller_id : Option String)
    (call_successful : Option Bool)
    (fresh now : String) (url_configured : Bool) (pub : Except Unit Unit) :
    ToolOutcome ElevenLabsResult :=
  let internal_event_type := elevenlabs_internal_event_type event_type
  let events2 := insert_workflow_event events fresh none internal_event_type now "ELEVENLABS"
  { events := events2
    result := { event_id := fresh, event_type := internal_event_type,
                conversation_id := conversation_id, accepted := true }
    trace := [.insertEvent fresh] ++ publish_event url_configured pub internal_event_type }

/-- The Cal.com trigger → internal type dict (`event_type_map`). -/
def calcom_event_type_map : List (String × String) :=
  [("BOOKING_CREATED", "CalcomBookingCreated"),
   ("BOOKING_RESCHEDULED", "CalcomBookingRescheduled"),
   ("BOOKING_CANCELLED", "CalcomBookingCancelled"),
   ("BOOKING_CONFIRMED", "CalcomBookingConfirmed"),
   ("MEETING_ENDED", "CalcomMeetingEnded"),
   ("MEETING_STARTED", "CalcomMeetingStarted")]

/-- `event_type_map.get(trigger_event, "CalcomEvent")`. -/
def calcom_internal_event_type (trigger_event : String) : String :=
  match (calcom_event_type_map.find? (fun kv => kv.1 == trigger_event)) with
  | some kv => kv.2
  | none => "CalcomEvent"

/-- Result dict of `process_calcom_event`. -/
structure CalcomResult where
  event_id : String
  event_type : String
  booking_id : Option Int
  ohid : Option String
  accepted : Bool
deriving DecidableEq, Repr

/-- The `process_calcom_event` tool: map the booking trigger, attempt an
identity lookup when attendee contact info is truthy, persist the event
(fresh id, normalization-time timestamp), then best-effort publish. -/
def process_calcom_event (leadStore : List StoredLead) (events : List EventRow)
    (trigger_event : String) (booking_id event_type_id : Option Int)
    (title start_time end_time attendee_name : Option String)
    (attendee_email attendee_phone : Option String)
    (fresh now : String) (url_configured : Bool) (pub : Except Unit Unit) :
    ToolOutcome CalcomResult :=
  let internal_event_type := calcom_internal_event_type trigger_event
  let ohid :=
    if truthyOptStr attendee_email || truthyOptStr attendee_phone then
      find_ohid_by_contact leadStore attendee_email attendee_phone
    else none
  let events2 := insert_workflow_event events fresh ohid internal_event_type now "CALCOM"
  { events := events2
    result := { event_id := fresh, event_type := internal_event_type,
                booking_id := booking_id, ohid := ohid, accepted := true }
    trace := [.insertEvent fresh] ++ publish_event url_configured pub internal_event_type }

/-! ## Theorems: identity resolution -/

/-- A contact lookup misses exactly when no stored record matches. -/
lemma find_ohid_eq_none_iff (leads : List StoredLead) (e p : Option String) :
    find_ohid_by_contact leads e p = none ↔
      ∀ r ∈ leads, matchesContact e p r = false := by
  induction leads with
  | nil => simp [find_ohid_by_contact]
  | cons r rest ih =>
    cases h : matchesContact e p r with
    | true => simp [find_ohid_by_contact, h]
    | false => simp [find_ohid_by_contact, h, ih]

/-- A record that matches neither contact field of `person` also fails any
query whose truthy fields agree with `person`'s. -/
lemma matchesContact_mono (person : Person) (r : StoredLead) (qe qp : Option String)
    (hqe : truthyOptStr qe = true → qe = person.email)
    (hqp : truthyOptStr qp = true → qp = person.phone)
    (hr : matchesContact person.email person.phone r = false) :
    matchesContact qe qp r = false := by
  unfold matchesContact at hr ⊢
  cases hte : truthyOptStr qe with
  | true =>
    have h1 := hqe hte
    rw [h1] at hte ⊢
    cases htp : truthyOptStr qp with
    | true =>
      have h2 := hqp htp
      rw [h2] at htp ⊢
      simp_all
    | false => simp_all
  | false =>
    cases htp : truthyOptStr qp with
    | true =>
      have h2 := hqp htp
      rw [h2] at htp ⊢
      simp_all
    | false => simp_all

/-- A freshly inserted record matches any query whose truthy fields agree with
its person's contact fields, provided at least one field is truthy. -/
lemma matchesContact_self (person : Person) (iid oh : String) (qe qp : Option String)
    (hqe : truthyOptStr qe = true → qe = person.email)
    (hqp : truthyOptStr qp = true → qp = person.phone)
    (hsome : truthyOptStr qe = true ∨ truthyOptStr qp = true) :
    matchesContact qe qp ⟨iid, oh, person⟩ = true := by
  unfold matchesContact
  rcases hsome with h | h
  · have h1 := hqe h
    subst h1
    simp [h]
  · have h2 := hqp h
    subst h2
    simp [h]

/-- Scanning past a prefix of non-matching records finds the first match. -/
lemma find_ohid_append_of_none (l1 : List StoredLead) (r : StoredLead)
    (l2 : List StoredLead) (qe qp : Option String)
    (h1 : ∀ x ∈ l1, matchesContact qe qp x = false)
    (hr : matchesContact qe qp r = true) :
    find_ohid_by_contact (l1 ++ r :: l2) qe qp = some r.ohid := by
  induction l1 with
  | nil => simp [find_ohid_by_contact, hr]
  | cons x xs ih =>
    have hx := h1 x (by simp)
    simp only [List.cons_append]
    unfold find_ohid_by_contact
    rw [hx]
    exact ih (fun y hy => h1 y (by simp [hy]))

/-- C1, amended (corrected claim): once an identity is minted by a lookup miss
(`resolve_ohid` returns the fresh token) and the lead record is inserted via
`insert_lead_context`, every subsequent `find_ohid_by_contact` call whose
supplied (truthy) fields all match that lead — matching email, matching phone,
or both, with at least one supplied — returns the minted token, even after
arbitrary further inserts (`ext`). (The unamended claim, which allows the
other supplied field to match a different, older record, is refuted by
`cross_match_lookup_returns_older_identity`.) -/
theorem minted_identity_found_by_matching_lookup
    (leads ext : List StoredLead) (person : Person) (fresh ingest_id : String)
    (qe qp : Option String)
    (hmiss : find_ohid_by_contact leads person.email person.phone = none)
    (hqe : truthyOptStr qe = true → qe = person.email)
    (hqp : truthyOptStr qp = true → qp = person.phone)
    (hsome : truthyOptStr qe = true ∨ truthyOptStr qp = true) :
    resolve_ohid leads person fresh = fresh ∧
    find_ohid_by_contact (insert_lead_context leads fresh ingest_id person ++ ext)
      qe qp = some fresh := by
  have hall := (find_ohid_eq_none_iff leads person.email person.phone).mp hmiss
  constructor
  · unfold resolve_ohid
    rw [hmiss]
  · unfold insert_lead_context
    rw [List.append_assoc, List.singleton_append]
    exact find_ohid_append_of_none leads _ ext qe qp
      (fun x hx => matchesContact_mono person x qe qp hqe hqp (hall x hx))
      (matchesContact_self person ingest_id fresh qe qp hqe hqp hsome)

/-- Witness for `minted_identity_found_by_matching_lookup`: an empty store, a
lead with both contact fields, and a subsequent lookup by its email alone. -/
theorem minted_identity_found_by_matching_lookup_witness :
    resolve_ohid [] ⟨"Amy", "Lee", some "a@x.com", some "+1000"⟩ "OHID-1" = "OHID-1" ∧
    find_ohid_by_contact
      (insert_lead_context [] "OHID-1" "ING-1"
        ⟨"Amy", "Lee", some "a@x.com", some "+1000"⟩ ++ [])
      (some "a@x.com") none = some "OHID-1" :=
  minted_identity_found_by_matching_lookup [] []
    ⟨"Amy", "Lee", some "a@x.com", some "+1000"⟩ "OHID-1" "ING-1"
    (some "a@x.com") none rfl (fun _ => rfl)
    (fun h => absurd h (by decide)) (Or.inl (by decide))

/-- C1 counterexample: the claim as stated is false. With an older record
(email `e1@x.com`, phone `+111`, identity `OHID-OLD`) in the store, a new lead
(email `e2@x.com`, phone `+222`) misses the lookup, mints `OHID-NEW`, and is
inserted; but a subsequent lookup supplying the new lead's matching email
together with the older record's phone returns `OHID-OLD`, not the minted
identity. -/
theorem cross_match_lookup_returns_older_identity :
    find_ohid_by_contact
      [{ ingest_id := "ING-0", ohid := "OHID-OLD",
         person := { first_name := "Ann", last_name := "One",
                     email := some "e1@x.com", phone := some "+111" } }]
      (some "e2@x.com") (some "+222") = none ∧
    resolve_ohid
      [{ ingest_id := "ING-0", ohid := "OHID-OLD",
         person := { first_name := "Ann", last_name := "One",
                     email := some "e1@x.com", phone := some "+111" } }]
      { first_name := "Ben", last_name := "Two",
        email := some "e2@x.com", phone := some "+222" } "OHID-NEW" = "OHID-NEW" ∧
    find_ohid_by_contact
      (insert_lead_context
        [{ ingest_id := "ING-0", ohid := "OHID-OLD",
           person := { first_name := "Ann", last_name := "One",
                       email := some "e1@x.com", phone := some "+111" } }]
        "OHID-NEW" "ING-1"
        { first_name := "Ben", last_name := "Two",
          email := some "e2@x.com", phone := some "+222" })
      (some "e2@x.com") (some "+111") = some "OHID-OLD" ∧
    ("OHID-OLD" : String) ≠ "OHID-NEW" := by
  decide

/-! ## Theorems: conversation-initiation personalization -/

/-- C2: for every conversation-initiation request supplying a (truthy) phone,
if the registered lead-lookup callback raises, the personalization body does
not raise and returns the full default variable set — sixteen string-valued
keys — with `phone` equal to the supplied phone and every other field at its
documented default. -/
theorem lookup_failure_returns_full_defaults_with_phone (p : String) (hp : p ≠ "") :
    conversation_initiation (some p) (.error ()) =
      { defaultDynamicVariables with phone := p } ∧
    (dvDump (conversation_initiation (some p) (.error ()))).length = 16 ∧
    ("phone", p) ∈ dvDump (conversation_initiation (some p) (.error ())) := by
  have h : (p == "") = false := by simp [hp]
  refine ⟨?_, rfl, ?_⟩
  · simp [conversation_initiation, h, defaultDynamicVariables]
  · simp [conversation_initiation, h, dvDump]

/-- Witness for `lookup_failure_returns_full_defaults_with_phone` at the
concrete phone `+15550100`. -/
theorem lookup_failure_returns_full_defaults_with_phone_witness :
    conversation_initiation (some "+15550100") (.error ()) =
      { defaultDynamicVariables with phone := "+15550100" } ∧
    (dvDump (conversation_initiation (some "+15550100") (.error ()))).length = 16 ∧
    ("phone", "+15550100") ∈ dvDump (conversation_initiation (some "+15550100") (.error ())) :=
  lookup_failure_returns_full_defaults_with_phone "+15550100" (by decide)

/-- C8: when none of the four phone aliases (`number`, `caller_id`,
`phone_number`, `from`) is populated (truthy), the lookup is never consulted —
the result is the same for every lookup outcome — and the returned variable
set is the all-default one, whose `phone` is `""` and whose `first_name` is
the literal `"there"`. -/
theorem no_phone_alias_skips_lookup_and_defaults
    (number caller_id phone_number from_number : Option String)
    (h1 : truthyOptStr number = false) (h2 : truthyOptStr caller_id = false)
    (h3 : truthyOptStr phone_number = false) (h4 : truthyOptStr from_number = false)
    (lookup : Except Unit (Option Lead)) :
    conversation_initiation
      (ConversationInitiationRequest.resolve_phone
        ⟨number, caller_id, phone_number, from_number, none, none, none⟩)
      lookup = defaultDynamicVariables ∧
    defaultDynamicVariables.phone = "" ∧
    defaultDynamicVariables.first_name = "there" := by
  refine ⟨?_, rfl, rfl⟩
  have hres : ConversationInitiationRequest.resolve_phone
      ⟨number, caller_id, phone_number, from_number, none, none, none⟩ = from_number := by
    simp [ConversationInitiationRequest.resolve_phone, pyOrOpt, h1, h2, h3]
  rw [hres]
  cases from_number with
  | none => rfl
  | some s =>
    have hs : (s == "") = true := by
      simpa [truthyOptStr] using h4
    simp [conversation_initiation, hs, defaultDynamicVariables]

/-- Witness for `no_phone_alias_skips_lookup_and_defaults` with all four
aliases absent and a would-be-successful lookup. -/
theorem no_phone_alias_skips_lookup_and_defaults_witness :
    conversation_initiation
      (ConversationInitiationRequest.resolve_phone ⟨none, none, none, none, none, none, none⟩)
      (.ok none) = defaultDynamicVariables ∧
    defaultDynamicVariables.phone = "" ∧
    defaultDynamicVariables.first_name = "there" :=
  no_phone_alias_skips_lookup_and_defaults none none none none rfl rfl rfl rfl (.ok none)

/-- C10: if the lookup returns a record but mapping it into the sixteen
variables raises (pydantic string validation), the personalization body
returns the complete default set with only `phone` taken from the request —
never a partial mix of record-derived values and defaults. -/
theorem mapping_failure_returns_defaults_not_partial
    (p : String) (hp : p ≠ "") (lead : Lead)
    (hmap : map_lead_to_variables lead p = .error ()) :
    conversation_initiation (some p) (.ok (some lead)) =
      { defaultDynamicVariables with phone := p } := by
  have h : (p == "") = false := by simp [hp]
  simp [conversation_initiation, h, hmap, defaultDynamicVariables]

/-- Witness for `mapping_failure_returns_defaults_not_partial`: a stored
record whose `Nationality` is the integer `5` fails string validation, and the
response is the default set with only the phone populated. -/
theorem mapping_failure_returns_defaults_not_partial_witness :
    conversation_initiation (some "+15550100")
      (.ok (some { Nationality := some (.int 5) })) =
      { defaultDynamicVariables with phone := "+15550100" } :=
  mapping_failure_returns_defaults_not_partial "+15550100" (by decide)
    { Nationality := some (.int 5) } rfl

/-! ## Theorems: post-call path -/

/-- C3: for every post-call request, the synchronous response has
`received = true` and echoes exactly the request's `conversation_id`, and the
response is the same whatever the registered persistence handler does —
in particular when it raises. -/
theorem post_call_always_acknowledges (req : PostCallRequest)
    (handler handler' : LeadUpdate → Except Unit Unit) (cid now : String) :
    (post_call req handler cid now).response.received = true ∧
    (post_call req handler cid now).response.conversation_id = req.conversation_id ∧
    (post_call req handler cid now).response = (post_call req handler' cid now).response :=
  ⟨rfl, rfl, rfl⟩

/-- C4: the post-call qualification-score extraction parses the string
`"72"` to the integer `72`, silently defaults the malformed `"N/A"` to `0`,
and is total — for every analysis payload the request is acknowledged
(`received = true`), never rejected for a malformed score sub-field. -/
theorem qualification_score_extraction_spec :
    extract_qualification_score
      (some { data_collection := some [("qualification_score", .str "72")] }) = 72 ∧
    extract_qualification_score
      (some { data_collection := some [("qualification_score", .str "N/A")] }) = 0 ∧
    ∀ (analysis : Option ConversationAnalysis) (req : PostCallRequest)
      (handler : LeadUpdate → Except Unit Unit) (cid now : String),
      (post_call { req with analysis := analysis } handler cid now).response.received = true ∧
      (post_call { req with analysis := analysis } handler cid now).response.conversation_id
        = req.conversation_id := by
  refine ⟨by decide, by decide, fun analysis req handler cid now => ⟨rfl, rfl⟩⟩

/-! ## Theorems: event-type mapping -/

/-- C5: the internal event type is a pure function of the native signal:
a Twilio `call_status` maps to `CallReceived` exactly for
`ringing`/`queued`/`initiated` and to `CallCompleted` otherwise, and the six
listed Cal.com triggers map 1:1 to their `Calcom*` types with every other
trigger mapping to `CalcomEvent`. -/
theorem event_type_mapping_spec (s t : String)
    (ht : ¬(t = "BOOKING_CREATED" ∨ t = "BOOKING_RESCHEDULED" ∨ t = "BOOKING_CANCELLED"
        ∨ t = "BOOKING_CONFIRMED" ∨ t = "MEETING_ENDED" ∨ t = "MEETING_STARTED")) :
    (twilio_internal_event_type s = "CallReceived" ↔
      (s = "ringing" ∨ s = "queued" ∨ s = "initiated")) ∧
    (¬(s = "ringing" ∨ s = "queued" ∨ s = "initiated") →
      twilio_internal_event_type s = "CallCompleted") ∧
    calcom_internal_event_type "BOOKING_CREATED" = "CalcomBookingCreated" ∧
    calcom_internal_event_type "BOOKING_RESCHEDULED" = "CalcomBookingRescheduled" ∧
    calcom_internal_event_type "BOOKING_CANCELLED" = "CalcomBookingCancelled" ∧
    calcom_internal_event_type "BOOKING_CONFIRMED" = "CalcomBookingConfirmed" ∧
    calcom_internal_event_type "MEETING_ENDED" = "CalcomMeetingEnded" ∧
    calcom_internal_event_type "MEETING_STARTED" = "CalcomMeetingStarted" ∧
    calcom_internal_event_type t = "CalcomEvent" := by
  push_neg at ht
  obtain ⟨t1, t2, t3, t4, t5, t6⟩ := ht
  refine ⟨?_, ?_, by decide, by decide, by decide, by decide, by decide, by decide, ?_⟩
  · constructor
    · intro hcr
      by_contra hn
      push_neg at hn
      have hb : (s == "ringing" || s == "queued" || s == "initiated") = false := by
        simp only [Bool.or_eq_false_iff, beq_eq_false_iff_ne]
        exact ⟨⟨hn.1, hn.2.1⟩, hn.2.2⟩
      unfold twilio_internal_event_type at hcr
      rw [hb] at hcr
      exact absurd hcr (by decide)
    · intro h
      unfold twilio_internal_event_type
      rcases h with h | h | h <;> simp [h]
  · intro h
    push_neg at h
    unfold twilio_internal_event_type
    have hb : (s == "ringing" || s == "queued" || s == "initiated") = false := by
      simp only [Bool.or_eq_false_iff, beq_eq_false_iff_ne]
      exact ⟨⟨h.1, h.2.1⟩, h.2.2⟩
    rw [hb]
    rfl
  · have e1 : ("BOOKING_CREATED" == t) = false := beq_eq_false_iff_ne.mpr (Ne.symm t1)
    have e2 : ("BOOKING_RESCHEDULED" == t) = false := beq_eq_false_iff_ne.mpr (Ne.symm t2)
    have e3 : ("BOOKING_CANCELLED" == t) = false := beq_eq_false_iff_ne.mpr (Ne.symm t3)
    have e4 : ("BOOKING_CONFIRMED" == t) = false := beq_eq_false_iff_ne.mpr (Ne.symm t4)
    have e5 : ("MEETING_ENDED" == t) = false := beq_eq_false_iff_ne.mpr (Ne.symm t5)
    have e6 : ("MEETING_STARTED" == t) = false := beq_eq_false_iff_ne.mpr (Ne.symm t6)
    simp [calcom_internal_event_type, calcom_event_type_map, List.find?,
          e1, e2, e3, e4, e5, e6]

/-- Witness for `event_type_mapping_spec` at the Twilio status `completed`
and the unrecognized Cal.com trigger `FOO`. -/
theorem event_type_mapping_spec_witness :
    ((twilio_internal_event_type "completed" = "CallReceived" ↔
      ("completed" = "ringing" ∨ "completed" = "queued" ∨ "completed" = "initiated")) ∧
    (¬("completed" = "ringing" ∨ "completed" = "queued" ∨ "completed" = "initiated") →
      twilio_internal_event_type "completed" = "CallCompleted") ∧
    calcom_internal_event_type "BOOKING_CREATED" = "CalcomBookingCreated" ∧
    calcom_internal_event_type "BOOKING_RESCHEDULED" = "CalcomBookingRescheduled" ∧
    calcom_internal_event_type "BOOKING_CANCELLED" = "CalcomBookingCancelled" ∧
    calcom_internal_event_type "BOOKING_CONFIRMED" = "CalcomBookingConfirmed" ∧
    calcom_internal_event_type "MEETING_ENDED" = "CalcomMeetingEnded" ∧
    calcom_internal_event_type "MEETING_STARTED" = "CalcomMeetingStarted" ∧
    calcom_internal_event_type "FOO" = "CalcomEvent") :=
  event_type_mapping_spec "completed" "FOO" (by decide)

/-! ## Theorems: event normalization (ids, timestamps, persistence order) -/

/-- C6 counterexample: on the Notion path the event id is NOT freshly
assigned regardless of the payload — a payload carrying `id = "native-123"`
is persisted and returned under `"native-123"`, not under the fresh uuid. -/
theorem notion_event_id_reuses_native_payload_id :
    (process_notion_event []
      { challenge := none, type_ := some "page.updated", id := some "native-123" }
      "FRESH-UUID" "2026-01-01T00:00:00+00:00" false (.ok ())).events
      = [{ event_id := "native-123", ohid := none, event_type := "NotionEvent",
           occurred_at := "2026-01-01T00:00:00+00:00", source_system := "NOTION" }] ∧
    (process_notion_event []
      { challenge := none, type_ := some "page.updated", id := some "native-123" }
      "FRESH-UUID" "2026-01-01T00:00:00+00:00" false (.ok ())).result
      = .accepted "native-123" ∧
    ("native-123" : String) ≠ "FRESH-UUID" := by
  decide

/-- C6, amended (corrected claim): on the Twilio, ElevenLabs, Cal.com and
lead-ingestion paths the normalized event is assigned the freshly generated
event id and the normalization-time timestamp regardless of the native
payload; on the Notion path the timestamp is likewise generated at
normalization time, but the event id is `payload.get("id", str(uuid4()))` —
the native payload id when present, the fresh uuid only when absent. -/
theorem fresh_event_id_and_timestamp_amended :
    (∀ (events : List EventRow) (call_sid s d fn tn : String) (ru cd : Option String)
       (fresh now : String) (cfg : Bool) (pub : Except Unit Unit),
       ∃ row, (process_twilio_event events call_sid s d fn tn ru cd fresh now cfg pub).events
           = events ++ [row] ∧ row.event_id = fresh ∧ row.occurred_at = now ∧
         (process_twilio_event events call_sid s d fn tn ru cd fresh now cfg pub).result.event_id
           = fresh) ∧
    (∀ (events : List EventRow) (ty : String) (aid cid : Option String) (dur : Option Int)
       (tr ru caller : Option String) (cs : Option Bool)
       (fresh now : String) (cfg : Bool) (pub : Except Unit Unit),
       ∃ row, (process_elevenlabs_event events ty aid cid dur tr ru caller cs
           fresh now cfg pub).events = events ++ [row] ∧
         row.event_id = fresh ∧ row.occurred_at = now ∧
         (process_elevenlabs_event events ty aid cid dur tr ru caller cs
           fresh now cfg pub).result.event_id = fresh) ∧
    (∀ (leadStore : List StoredLead) (events : List EventRow) (trig : String)
       (bid etid : Option Int) (title st et an ae ap : Option String)
       (fresh now : String) (cfg : Bool) (pub : Except Unit Unit),
       ∃ row, (process_calcom_event leadStore events trig bid etid title st et an ae ap
           fresh now cfg pub).events = events ++ [row] ∧
         row.event_id = fresh ∧ row.occurred_at = now ∧
         (process_calcom_event leadStore events trig bid etid title st et an ae ap
           fresh now cfg pub).result.event_id = fresh) ∧
    (∀ (leadStore : List StoredLead) (events : List EventRow)
       (ss sli ch fn ln : String) (email phone : Option String)
       (fo iid now : String) (cfg : Bool) (pub : Except Unit Unit),
       ∃ row, (ingest_lead leadStore events ss sli ch fn ln email phone
           fo iid now cfg pub).events = events ++ [row] ∧
         row.event_id = iid ∧ row.occurred_at = now ∧
         (ingest_lead leadStore events ss sli ch fn ln email phone
           fo iid now cfg pub).result.ingest_id = iid) ∧
    (∀ (events : List EventRow) (ty idv : Option String)
       (fresh now : String) (cfg : Bool) (pub : Except Unit Unit),
       ∃ row, (process_notion_event events ⟨none, ty, idv⟩ fresh now cfg pub).events
           = events ++ [row] ∧
         row.event_id = idv.getD fresh ∧ row.occurred_at = now) :=
  ⟨fun events call_sid s d fn tn ru cd fresh now cfg pub => ⟨_, rfl, rfl, rfl, rfl⟩,
   fun events ty aid cid dur tr ru caller cs fresh now cfg pub => ⟨_, rfl, rfl, rfl, rfl⟩,
   fun leadStore events trig bid etid title st et an ae ap fresh now cfg pub =>
     ⟨_, rfl, rfl, rfl, rfl⟩,
   fun leadStore events ss sli ch fn ln email phone fo iid now cfg pub =>
     ⟨_, rfl, rfl, rfl, rfl⟩,
   fun events ty idv fresh now cfg pub => ⟨_, rfl, rfl, rfl⟩⟩

/-- C7: every event-processing tool appends the normalized event to the
workflow-event store before the (best-effort) publish attempt — the trace is
the insert followed by the publish — and a publish failure neither removes or
alters the persisted events nor changes the tool's successful return value
(post-state and result coincide with the publish-success run). -/
theorem persist_before_publish_spec :
    (∀ (events : List EventRow) (call_sid s d fn tn : String) (ru cd : Option String)
       (fresh now : String) (cfg : Bool) (pub : Except Unit Unit),
       (process_twilio_event events call_sid s d fn tn ru cd fresh now cfg pub).events
         = (process_twilio_event events call_sid s d fn tn ru cd fresh now cfg (.ok ())).events ∧
       (process_twilio_event events call_sid s d fn tn ru cd fresh now cfg pub).result
         = (process_twilio_event events call_sid s d fn tn ru cd fresh now cfg (.ok ())).result ∧
       (∃ row, (process_twilio_event events call_sid s d fn tn ru cd fresh now cfg pub).events
           = events ++ [row]) ∧
       (process_twilio_event events call_sid s d fn tn ru cd fresh now cfg pub).trace
         = [.insertEvent fresh] ++ publish_event cfg pub (twilio_internal_event_type s)) ∧
    (∀ (events : List EventRow) (ty : String) (aid cid : Option String) (dur : Option Int)
       (tr ru caller : Option String) (cs : Option Bool)
       (fresh now : String) (cfg : Bool) (pub : Except Unit Unit),
       (process_elevenlabs_event events ty aid cid dur tr ru caller cs fresh now cfg pub).events
         = (process_elevenlabs_event events ty aid cid dur tr ru caller cs fresh now cfg (.ok ())).events ∧
       (process_elevenlabs_event events ty aid cid dur tr ru caller cs fresh now cfg pub).result
         = (process_elevenlabs_event events ty aid cid dur tr ru caller cs fresh now cfg (.ok ())).result ∧
       (∃ row, (process_elevenlabs_event events ty aid cid dur tr ru caller cs
           fresh now cfg pub).events = events ++ [row]) ∧
       (process_elevenlabs_event events ty aid cid dur tr ru caller cs fresh now cfg pub).trace
         = [.insertEvent fresh] ++ publish_event cfg pub (elevenlabs_internal_event_type ty)) ∧
    (∀ (leadStore : List StoredLead) (events : List EventRow) (trig : String)
       (bid etid : Option Int) (title st et an ae ap : Option String)
       (fresh now : String) (cfg : Bool) (pub : Except Unit Unit),
       (process_calcom_event leadStore events trig bid etid title st et an ae ap
           fresh now cfg pub).events
         = (process_calcom_event leadStore events trig bid etid title st et an ae ap
             fresh now cfg (.ok ())).events ∧
       (process_calcom_event leadStore events trig bid etid title st et an ae ap
           fresh now cfg pub).result
         = (process_calcom_event leadStore events trig bid etid title st et an ae ap
             fresh now cfg (.ok ())).result ∧
       (∃ row, (process_calcom_event leadStore events trig bid etid title st et an ae ap
           fresh now cfg pub).events = events ++ [row]) ∧
       (process_calcom_event leadStore events trig bid etid title st et an ae ap
           fresh now cfg pub).trace
         = [.insertEvent fresh] ++ publish_event cfg pub (calcom_internal_event_type trig)) ∧
    (∀ (leadStore : List StoredLead) (events : List EventRow)
       (ss sli ch fn ln : String) (email phone : Option String)
       (fo iid now : String) (cfg : Bool) (pub : Except Unit Unit),
       (ingest_lead leadStore events ss sli ch fn ln email phone fo iid now cfg pub).events
         = (ingest_lead leadStore events ss sli ch fn ln email phone fo iid now cfg (.ok ())).events ∧
       (ingest_lead leadStore events ss sli ch fn ln email phone fo iid now cfg pub).leads
         = (ingest_lead leadStore events ss sli ch fn ln email phone fo iid now cfg (.ok ())).leads ∧
       (ingest_lead leadStore events ss sli ch fn ln email phone fo iid now cfg pub).result
         = (ingest_lead leadStore events ss sli ch fn ln email phone fo iid now cfg (.ok ())).result ∧
       (∃ row, (ingest_lead leadStore events ss sli ch fn ln email phone
           fo iid now cfg pub).events = events ++ [row]) ∧
       (ingest_lead leadStore events ss sli ch fn ln email phone fo iid now cfg pub).trace
         = [.insertLead iid, .insertEvent iid] ++ publish_event cfg pub "LeadIngested") ∧
    (∀ (events : List EventRow) (ty idv : Option String)
       (fresh now : String) (cfg : Bool) (pub : Except Unit Unit),
       (process_notion_event events ⟨none, ty, idv⟩ fresh now cfg pub).events
         = (process_notion_event events ⟨none, ty, idv⟩ fresh now cfg (.ok ())).events ∧
       (process_notion_event events ⟨none, ty, idv⟩ fresh now cfg pub).result
         = (process_notion_event events ⟨none, ty, idv⟩ fresh now cfg (.ok ())).result ∧
       (∃ row, (process_notion_event events ⟨none, ty, idv⟩ fresh now cfg pub).events
           = events ++ [row]) ∧
       (process_notion_event events ⟨none, ty, idv⟩ fresh now cfg pub).trace
         = [.insertEvent (idv.getD fresh)] ++ publish_event cfg pub "NotionEvent") :=
  ⟨fun events call_sid s d fn tn ru cd fresh now cfg pub => ⟨rfl, rfl, ⟨_, rfl⟩, rfl⟩,
   fun events ty aid cid dur tr ru caller cs fresh now cfg pub => ⟨rfl, rfl, ⟨_, rfl⟩, rfl⟩,
   fun leadStore events trig bid etid title st et an ae ap fresh now cfg pub =>
     ⟨rfl, rfl, ⟨_, rfl⟩, rfl⟩,
   fun leadStore events ss sli ch fn ln email phone fo iid now cfg pub =>
     ⟨rfl, rfl, rfl, ⟨_, rfl⟩, rfl⟩,
   fun events ty idv fresh now cfg pub => ⟨rfl, rfl, ⟨_, rfl⟩, rfl⟩⟩

/-! ## Theorems: webhook authentication -/

/-- A SHA-256 digest is 32 bytes. -/
lemma sha256bytes_length (msg : List Nat) : (sha256bytes msg).length = 32 := by
  simp [sha256bytes, wordBytes]

/-- An HMAC-SHA256 digest is 32 bytes. -/
lemma hmac_sha256_length (key msg : List Nat) : (hmac_sha256 key msg).length = 32 := by
  simp [hmac_sha256, sha256bytes_length]

/-- Hex rendering doubles the length. -/
lemma bytesToHex_length (bs : List Nat) : (bytesToHex bs).length = 2 * bs.length := by
  have h : ∀ l : List Nat,
      (l.foldr (fun b acc => hexDigit (b / 16) :: hexDigit (b % 16) :: acc) []).length
        = 2 * l.length := by
    intro l
    induction l with
    | nil => rfl
    | cons b rest ih =>
      simp only [List.foldr_cons, List.length_cons, ih]
      omega
  simpa [bytesToHex] using h bs

/-- An HMAC-SHA256 hex digest is never the empty string. -/
lemma hmac_hexdigest_ne_empty (key msg : List Nat) :
    hmac_sha256_hexdigest key msg ≠ "" := by
  intro h
  have hl := bytesToHex_length (hmac_sha256 key msg)
  rw [hmac_sha256_length] at hl
  rw [show bytesToHex (hmac_sha256 key msg) = hmac_sha256_hexdigest key msg from rfl,
      h] at hl
  exact absurd hl (by decide)

/-- C9: webhook signature verification. With no secret configured every
request passes (dev-mode bypass); with a secret configured a missing
signature is rejected, and a supplied signature is accepted exactly when it
equals the HMAC-SHA256 hex digest of the raw body under the secret; and both
webhook endpoints answer a failed verification with 403 independently of the
parsing, lookup and persistence stages — none of them is reached. -/
theorem signature_verification_spec :
    (∀ (body : List Nat) (sig : Option String),
       verify_elevenlabs_signature body sig none = true) ∧
    (∀ (body : List Nat) (s : String), s ≠ "" →
       verify_elevenlabs_signature body none (some s) = false) ∧
    (∀ (body : List Nat) (s sig : String), s ≠ "" →
       (verify_elevenlabs_signature body (some sig) (some s) = true ↔
         sig = hmac_sha256_hexdigest (strBytes s) body)) ∧
    (∀ (body : List Nat) (sig secret : Option String),
       verify_elevenlabs_signature body sig secret = false →
       (∀ (parse : Except Unit ConversationInitiationRequest)
          (lookup : Except Unit (Option Lead)),
          conversation_initiation_endpoint body sig secret parse lookup = .error 403) ∧
       (∀ (parse : Except Unit PostCallRequest) (handler : LeadUpdate → Except Unit Unit)
          (cid now : String),
          post_call_endpoint body sig secret parse handler cid now = .error 403)) := by
  refine ⟨fun body sig => rfl, ?_, ?_, ?_⟩
  · intro body s hs
    simp [verify_elevenlabs_signature, truthyOptStr, hs]
  · intro body s sig hs
    by_cases hsig : sig = ""
    · subst hsig
      have hv : verify_elevenlabs_signature body (some "") (some s) = false := by
        simp [verify_elevenlabs_signature, truthyOptStr, hs]
      rw [hv]
      constructor
      · intro hc; exact absurd hc (by decide)
      · intro hc; exact absurd hc.symm (hmac_hexdigest_ne_empty _ _)
    · have hv : verify_elevenlabs_signature body (some sig) (some s)
          = (sig == hmac_sha256_hexdigest (strBytes s) body) := by
        simp [verify_elevenlabs_signature, truthyOptStr, hs, hsig, compare_digest]
      rw [hv]
      exact beq_iff_eq
  · intro body sig secret hfail
    constructor
    · intro parse lookup
      simp [conversation_initiation_endpoint, hfail]
    · intro parse handler cid now
      simp [post_call_endpoint, hfail]

/-- Witness for `signature_verification_spec` at a concrete body, signature
and secret. -/
theorem signature_verification_spec_witness :
    verify_elevenlabs_signature [] (some "deadbeef") none = true ∧
    verify_elevenlabs_signature [] none (some "topsecret") = false ∧
    (verify_elevenlabs_signature [] (some "deadbeef") (some "topsecret") = true ↔
      "deadbeef" = hmac_sha256_hexdigest (strBytes "topsecret") []) ∧
    conversation_initiation_endpoint [] none (some "topsecret") (.ok {}) (.ok none)
      = .error 403 ∧
    post_call_endpoint [] none (some "topsecret") (.ok { conversation_id := "c1" })
      (fun _ => .ok ()) "cid" "now" = .error 403 := by
  obtain ⟨p1, p2, p3, p4⟩ := signature_verification_spec
  exact ⟨p1 [] (some "deadbeef"), p2 [] "topsecret" (by decide),
         p3 [] "topsecret" "deadbeef" (by decide),
         (p4 [] none (some "topsecret") (p2 [] "topsecret" (by decide))).1
           (.ok {}) (.ok none),
         (p4 [] none (some "topsecret") (p2 [] "topsecret" (by decide))).2
           (.ok { conversation_id := "c1" }) (fun _ => .ok ()) "cid" "now"⟩

end Gateway
